import Mathlib

set_option linter.unusedVariables false

namespace Wasmer

/-! Shallow embedding of `lib/cli/src/commands/run.rs` (the `wasmer run`
subcommand): module loading through a content-addressed compiled-module
cache, guest-ABI detection and dispatch (Emscripten / WASI / bare), and
explicit function invocation with argument marshaling.  External
collaborators (the filesystem, the engines and compilers, the wasmer-cache
crate, guest execution) are supplied as an explicit environment `Env`;
observable side effects (cache reads and writes, compilations, stdout
lines, warnings) are recorded in traces. -/

/-- Raw bytes of the module payload (the result of `std::fs::read`). -/
abbrev Bytes := List Nat

/-- WebAssembly value types, as matched in `Run::invoke_function`. -/
inductive ValType
  | i32
  | i64
  | f32
  | f64
  | v128
  | externRef
  | funcRef
deriving DecidableEq

/-- Rust `{:?}` rendering of a value type (used in the unsupported-kind
conversion error of `Run::invoke_function`). -/
def ValType.debugStr : ValType → String
  | .i32 => "I32"
  | .i64 => "I64"
  | .f32 => "F32"
  | .f64 => "F64"
  | .v128 => "V128"
  | .externRef => "ExternRef"
  | .funcRef => "FuncRef"

/-- Runtime values (`wasmer::Val`).  Integer values carry the mathematical
integer held by the 32/64-bit machine word; float values carry their raw
bit pattern, their textual form being delegated to the environment (Rust
standard-library float formatting is an external collaborator). -/
inductive Val
  | i32 (v : Int)
  | i64 (v : Int)
  | f32 (bits : Nat)
  | f64 (bits : Nat)

/-- A function signature: parameter and result value kinds, in order. -/
structure FuncType where
  params : List ValType
  results : List ValType

/-- An exported guest function: its signature plus its call behavior.
Actual guest execution is an external collaborator, so the behavior is
supplied as data: a map from argument values to either results or a
runtime-error message. -/
structure FuncHandle where
  ty : FuncType
  behavior : List Val → Except String (List Val)

/-- An export of an instance: either a function or some other extern
(memory, global, table), which `get_function` rejects. -/
inductive ExportItem
  | func (f : FuncHandle)
  | other

/-- WASI dialect versions, modelled after the external `wasmer_wasi`
crate as used by `Run::inner_execute`. -/
inductive WasiVersion
  | snapshot0
  | snapshot1
  | latest
deriving DecidableEq

/-- Namespace string of a WASI version (`get_namespace_str`, external). -/
def WasiVersion.getNamespaceStr : WasiVersion → String
  | .snapshot0 => "wasi_unstable"
  | .snapshot1 => "wasi_snapshot_preview1"
  | .latest => "wasi_snapshot_preview1"

/-- A loaded module.  The fields record what the external inspection
functions report about it: `isEmscripten` is `is_emscripten_module`,
`hasWasiImports` is `Wasi::has_wasi_imports`, `wasiVersions` is
`Wasi::get_versions` (the set of distinct dialect versions referenced by
the module's imports, as an ordered duplicate-free list), `functions` is
the module's function table (`info().functions`, which counts imported
and local functions, exported or not), and `exports` are the module's
exports by name. -/
structure Module where
  isEmscripten : Bool
  hasWasiImports : Bool
  wasiVersions : Option (List WasiVersion)
  functions : List Unit
  exports : List (String × ExportItem)
  name : Option String := none

/-- One instantiation of a module (`wasmer::Instance`); its exports mirror
the module's exports. -/
structure Instance where
  mod : Module

/-- Errors of `Exports::get_function` (`wasmer::ExportError`). -/
inductive ExportError
  | missing (name : String)
  | incompatibleType

/-- Export lookup (`instance.exports.get_function(name)`): the export must
exist and be a function. -/
def Instance.getFunction (inst : Instance) (name : String) : Except ExportError FuncHandle :=
  match inst.mod.exports.find? (fun p => p.1 == name) with
  | none => .error (.missing name)
  | some (_, .func f) => .ok f
  | some (_, .other) => .error .incompatibleType

/-- Modelled from the spec: engine identifiers produced by the engine
selection layer (`store.rs` is not among the sources); only their display
strings are consumed here, for cache extensions and diagnostics. -/
inductive EngineType
  | native
  | jit
  | objectFile
deriving DecidableEq

/-- Display string of an engine identifier. -/
def EngineType.toStr : EngineType → String
  | .native => "native"
  | .jit => "jit"
  | .objectFile => "objectfile"

/-- Modelled from the spec: compiler identifiers produced by the engine
selection layer (`store.rs` is not among the sources). -/
inductive CompilerType
  | singlepass
  | cranelift
  | llvm
deriving DecidableEq

/-- Display string of a compiler identifier. -/
def CompilerType.toStr : CompilerType → String
  | .singlepass => "singlepass"
  | .cranelift => "cranelift"
  | .llvm => "llvm"

/-- A cache key digest (`wasmer_cache::Hash`). -/
structure Hash where
  digest : String
deriving DecidableEq

/-- Kinds of I/O failures, used to distinguish an absent cache entry from
other I/O errors inside `DeserializeError::Io`. -/
inductive IoKind
  | notFound
  | permissionDenied
  | otherKind
deriving DecidableEq

/-- Deserialization failures of a cached entry, modelled after the
external wasmer `DeserializeError` as matched in
`Run::get_module_from_cache`: an `Io` variant and non-I/O variants. -/
inductive DeserializeError
  | ioErr (kind : IoKind) (msg : String)
  | generic (msg : String)
  | incompatible (msg : String)
deriving DecidableEq

/-- Whether a deserialization failure is the `Io` variant. -/
def DeserializeError.isIoErr : DeserializeError → Bool
  | .ioErr _ _ => true
  | _ => false

/-- Display string of a deserialization failure. -/
def DeserializeError.display : DeserializeError → String
  | .ioErr _ m => m
  | .generic m => m
  | .incompatible m => m

/-- The import set handed to an instantiation: the empty `imports!{}` set
or the generated Emscripten host environment. -/
inductive ImportKind
  | empty
  | emscripten
deriving DecidableEq

/-- Observable side effects of a run, recorded in order. -/
inductive Event
  | cacheRead (h : Hash)
  | cacheWrite (h : Hash)
  | compiled
  | deserializedFromFile
  | instantiated (k : ImportKind)
  | wasiExecuted (programName : String) (args : List String)
  | emscriptenRan (programName : String) (args : List String)
deriving DecidableEq

/-- An `anyhow` error chain: context messages outermost first, the root
cause last. -/
abbrev Chain := List String

/-- The external collaborators of one `wasmer run` invocation, fixed for
the run: filesystem contents, engine selection, the cache store state, the
compiler, guest behavior, and the standard-library float grammar. -/
structure Env where
  readFile : Except String Bytes
  isDeserializableNative : Bytes → Bool
  isDeserializableJIT : Bytes → Bool
  deserializeNative : Except String Module
  deserializeJIT : Except String Module
  getStore : Except String (EngineType × CompilerType)
  enabledCompilers : List CompilerType
  cacheDir : String
  fsCacheNew : Except String Unit
  nativeExt : String
  jitExt : String
  hashFromStr : String → Option Hash
  hashGenerate : Bytes → Hash
  cacheLoad : Hash → Except DeserializeError Module
  cacheStore : Hash → Except String Unit
  compile : Bytes → Except String Module
  instantiate : Module → ImportKind → Except String Unit
  emscriptenGlobalsNew : Module → Except String Unit
  runEmscripten : String → List String → Except String Unit
  wasiExecute : Module → String → List String → Except String Unit
  score : String → String → Nat
  parseF32 : String → Option Nat
  parseF64 : String → Option Nat
  renderF32 : Nat → String
  renderF64 : Nat → String

/-- The flags and positional arguments of the `wasmer run` subcommand.
The two WASI policy flags live on the flattened `Wasi` options struct
(`wasi.rs` is not among the sources; the flags are referenced by name in
`run.rs` and described by the spec as `deny-multiple` / `allow-multiple`
ABI-conflict policy flags). -/
structure Run where
  disable_cache : Bool
  path : String
  invoke : Option String
  command_name : Option String
  cache_key : Option String
  args : List String
  deny_multiple_wasi_versions : Bool
  allow_multiple_wasi_versions : Bool

/-- Split a character list at `/` separators. -/
def splitPath : List Char → List (List Char)
  | [] => [[]]
  | x :: xs =>
    match splitPath xs with
    | [] => [[]]
    | g :: gs => if x = '/' then [] :: g :: gs else (x :: g) :: gs

/-- Modelled after `std::path::Path::file_name`: the last non-empty,
non-`.` component of the path, unless it is `..`. -/
def fileName (p : String) : Option String :=
  let comps := ((splitPath p.data).map String.mk).filter (fun c => c != "" && c != ".")
  match comps.getLast? with
  | none => none
  | some c => if c = ".." then none else some c

/-- Canonical textual form of a returned value (`Val::to_string`):
integers in decimal, floats through the external float formatter. -/
def valToString (env : Env) : Val → String
  | .i32 v => toString v
  | .i64 v => toString v
  | .f32 bits => env.renderF32 bits
  | .f64 bits => env.renderF64 bits

/-- The filesystem cache configuration built by `Run::get_cache`: the
cache root is namespaced by compiler identity and entries are tagged with
an engine-dependent artifact extension. -/
structure CacheCfg where
  root : String
  extension : String

/-- `Run::get_cache`: open the per-compiler cache directory and choose the
artifact extension from the engine (native and JIT engines supply a
platform extension; otherwise the compiler name is used). -/
def getCache (env : Env) (engineType : EngineType) (compilerType : CompilerType) :
    Except Chain CacheCfg :=
  match env.fsCacheNew with
  | .error e => .error [e]
  | .ok _ =>
    let extension :=
      match engineType with
      | .native => env.nativeExt
      | .jit => env.jitExt
      | .objectFile => compilerType.toStr
    .ok ⟨env.cacheDir ++ "/" ++ compilerType.toStr, extension⟩

/-- Cache key derivation: the hash parsed from the supplied `--cache-key`
when it parses as a digest, otherwise the content hash of the payload. -/
def resolveHash (parse : String → Option Hash) (gen : Bytes → Hash)
    (cacheKey : Option String) (contents : Bytes) : Hash :=
  match cacheKey.bind parse with
  | some h => h
  | none => gen contents

/-- `Run::get_module_from_cache`: open the cache, derive the key, try to
load the entry; on any load failure warn (unless the failure is the I/O
variant), recompile from the payload and overwrite the entry.  Returns the
result together with the events and warnings of the attempt. -/
def getModuleFromCache (env : Env) (run : Run) (contents : Bytes)
    (engineType : EngineType) (compilerType : CompilerType) :
    Except Chain Module × List Event × List String :=
  match getCache env engineType compilerType with
  | .error ch => (.error ch, [], [])
  | .ok _ =>
    let hash := resolveHash env.hashFromStr env.hashGenerate run.cache_key contents
    match env.cacheLoad hash with
    | .ok m => (.ok m, [.cacheRead hash], [])
    | .error e =>
      let ws : List String :=
        match e with
        | .ioErr _ _ => []
        | err => ["cached module is corrupted: " ++ err.display]
      match env.compile contents with
      | .error ce => (.error [ce], [.cacheRead hash, .compiled], ws)
      | .ok m =>
        match env.cacheStore hash with
        | .error se => (.error [se], [.cacheRead hash, .compiled, .cacheWrite hash], ws)
        | .ok _ => (.ok m, [.cacheRead hash, .compiled, .cacheWrite hash], ws)

/-- The context message wrapped around a failed module load
(`module instantiation failed (engine: .., compiler: ..)`). -/
def moduleLoadCtx (engineType : EngineType) (compilerType : CompilerType) : String :=
  "module instantiation failed (engine: " ++ engineType.toStr ++ ", compiler: " ++
    compilerType.toStr ++ ")"

/-- `Run::get_module`: read the payload; if it is already a serialized
artifact, deserialize it headlessly and return (the display name is not
set on this path); otherwise select a store and either consult the cache
(only when caching is not disabled and the payload is strictly larger
than 4096 bytes) or compile directly, wrap failures with the
engine/compiler context, and set the display name after cache
retrieval/storage. -/
def getModule (env : Env) (run : Run) : Except Chain Module × List Event × List String :=
  match env.readFile with
  | .error e => (.error [e], [], [])
  | .ok contents =>
    if env.isDeserializableNative contents then
      match env.deserializeNative with
      | .ok m => (.ok m, [.deserializedFromFile], [])
      | .error e => (.error [e], [.deserializedFromFile], [])
    else if env.isDeserializableJIT contents then
      match env.deserializeJIT with
      | .ok m => (.ok m, [.deserializedFromFile], [])
      | .error e => (.error [e], [.deserializedFromFile], [])
    else
      match env.getStore with
      | .error e => (.error [e], [], [])
      | .ok (engineType, compilerType) =>
        let loaded :=
          if run.disable_cache = false ∧ 4096 < contents.length then
            getModuleFromCache env run contents engineType compilerType
          else
            (match env.compile contents with
             | .ok m => .ok m
             | .error e => .error [e],
             [.compiled], [])
        match loaded with
        | (.error ch, evs, ws) => (.error (moduleLoadCtx engineType compilerType :: ch), evs, ws)
        | (.ok m, evs, ws) =>
          (.ok { m with name := some ((fileName run.path).getD "") }, evs, ws)

/-- Insert a name into a list already ordered by ascending score. -/
def insertByScore (score : String → Nat) (x : String) : List String → List String
  | [] => [x]
  | y :: ys => if score x ≤ score y then x :: y :: ys else y :: insertByScore score x ys

/-- Order names by ascending score under a scoring strategy. -/
def sortByScore (score : String → Nat) : List String → List String
  | [] => []
  | x :: xs => insertByScore score x (sortByScore score xs)

/-- Names of the module's exported functions, in export order. -/
def exportedFunctionNames (m : Module) : List String :=
  m.exports.filterMap (fun p =>
    match p.2 with
    | .func _ => some p.1
    | .other => none)

/-- Modelled from the spec: `suggest_function_exports` lives in
`crate::suggestions`, which is not among the sources.  Per the spec it
computes did-you-mean suggestions by matching the module's exported
function names against the query, under an unspecified ranking metric
modelled as a pluggable scoring strategy: the result is the exported
function names ordered by the strategy. -/
def suggest_function_exports (score : String → String → Nat) (m : Module)
    (query : String) : List String :=
  sortByScore (score query) (exportedFunctionNames m)

/-- Outcome of `Run::try_find_function`, with the panic of
`suggested_functions.get(0).unwrap()` made explicit. -/
inductive FindResult
  | found (f : FuncHandle)
  | failed (msg : String)
  | panicked

/-- `Run::try_find_function`: look the export up; on failure, report the
no-functions case distinctly when the module's function table is empty,
and otherwise build a suggestion message from the suggestion list — whose
first element is taken unconditionally (`.get(0).unwrap()`), panicking
when the list is empty. -/
def tryFindFunction (suggest : Module → String → List String) (run : Run)
    (inst : Instance) (name : String) (args : List String) : FindResult :=
  match inst.getFunction name with
  | .ok f => .found f
  | .error e =>
    if inst.mod.functions.isEmpty then
      .failed "The module has no exported functions to call."
    else
      let suggestedFunctions := suggest inst.mod ""
      let names := String.intercalate ", "
        ((suggestedFunctions.take 3).map (fun a => "`" ++ a ++ "`"))
      match suggestedFunctions.head? with
      | none => .panicked
      | some top =>
        let suggestedCommand :=
          "wasmer " ++ run.path ++ " -i " ++ top ++ " " ++ String.intercalate " " args
        let suggestion :=
          "Similar functions found: " ++ names ++ ".\nTry with: " ++ suggestedCommand
        match e with
        | .missing _ =>
          .failed ("No export `" ++ name ++ "` found in the module.\n" ++ suggestion)
        | .incompatibleType =>
          .failed ("Export `" ++ name ++ "` found, but is not a function.\n" ++ suggestion)

/-- Decimal digits to a natural number; `none` unless the string of
characters is non-empty and all digits. -/
def digitsToNat : List Char → Option Nat
  | [] => none
  | cs =>
    if cs.all Char.isDigit then
      some (cs.foldl (fun a c => a * 10 + (c.toNat - 48)) 0)
    else
      none

/-- The Rust integer `FromStr` grammar: an optional sign followed by one
or more decimal digits. -/
def parseIntRust (s : String) : Option Int :=
  match s.data with
  | '+' :: rest => (digitsToNat rest).map (fun n => (n : Int))
  | '-' :: rest => (digitsToNat rest).map (fun n => -(n : Int))
  | cs => (digitsToNat cs).map (fun n => (n : Int))

/-- `str::parse::<i32>()`: the Rust integer grammar with the i32 range. -/
def parseI32 (s : String) : Option Int :=
  (parseIntRust s).bind (fun v =>
    if -2147483648 ≤ v ∧ v < 2147483648 then some v else none)

/-- `str::parse::<i64>()`: the Rust integer grammar with the i64 range. -/
def parseI64 (s : String) : Option Int :=
  (parseIntRust s).bind (fun v =>
    if -9223372036854775808 ≤ v ∧ v < 9223372036854775808 then some v else none)

/-- Per-parameter conversion of one string argument according to its
positional parameter's declared value kind (`Run::invoke_function`). -/
def parseArgVal (env : Env) (arg : String) (paramType : ValType) : Except String Val :=
  match paramType with
  | .i32 =>
    match parseI32 arg with
    | some v => .ok (.i32 v)
    | none => .error ("Can\x27t convert `" ++ arg ++ "` into a i32")
  | .i64 =>
    match parseI64 arg with
    | some v => .ok (.i64 v)
    | none => .error ("Can\x27t convert `" ++ arg ++ "` into a i64")
  | .f32 =>
    match env.parseF32 arg with
    | some bits => .ok (.f32 bits)
    | none => .error ("Can\x27t convert `" ++ arg ++ "` into a f32")
  | .f64 =>
    match env.parseF64 arg with
    | some bits => .ok (.f64 bits)
    | none => .error ("Can\x27t convert `" ++ arg ++ "` into a f64")
  | other =>
    .error ("Don\x27t know how to convert " ++ arg ++ " into " ++ other.debugStr)

/-- Convert the argument strings left to right, stopping at the first
conversion failure (the `collect::<Result<..>>` of the zipped iterator). -/
def convertArgs (env : Env) : List (String × ValType) → Except String (List Val)
  | [] => .ok []
  | (arg, paramType) :: rest =>
    match parseArgVal env arg paramType with
    | .error e => .error e
    | .ok v =>
      match convertArgs env rest with
      | .error e => .error e
      | .ok vs => .ok (v :: vs)

/-- Outcome of `Run::invoke_function`. -/
inductive InvokeResult
  | ok (vals : List Val)
  | err (msg : String)
  | panicked

/-- The arity-mismatch message of `Run::invoke_function`, naming the
declared parameter count and the supplied count and echoing the raw
argument string (`self.args` joined by spaces). -/
def arityMsg (required provided : Nat) (rawArgs : List String) : String :=
  "Function expected " ++ toString required ++ " arguments, but received " ++
    toString provided ++ ": \"" ++ String.intercalate " " rawArgs ++ "\""

/-- `Run::invoke_function`: resolve the export, check the arity exactly,
convert the arguments positionally, and call the guest function. -/
def invokeFunction (env : Env) (run : Run) (inst : Instance) (invoke : String)
    (args : List String) : InvokeResult :=
  match tryFindFunction (suggest_function_exports env.score) run inst invoke args with
  | .panicked => .panicked
  | .failed msg => .err msg
  | .found f =>
    let requiredArguments := f.ty.params.length
    let providedArguments := args.length
    if requiredArguments ≠ providedArguments then
      .err (arityMsg requiredArguments providedArguments run.args)
    else
      match convertArgs env (args.zip f.ty.params) with
      | .error e => .err e
      | .ok invokeArgs =>
        match f.behavior invokeArgs with
        | .error e => .err e
        | .ok vals => .ok vals

/-- The overall outcome of a run: success, an error chain, or a panic
(which no `with_context` wrapper catches). -/
inductive ExecResult
  | ok
  | err (chain : Chain)
  | panicked
deriving DecidableEq

/-- The full observable trace of a run: outcome, stdout lines, warnings
(a channel distinct from stdout), and side-effect events. -/
structure RunTrace where
  result : ExecResult
  stdout : List String
  warnings : List String
  events : List Event
deriving DecidableEq

/-- The fatal dialect-conflict message (`--deny-multiple-wasi-versions`). -/
def denyMsg (versionList : String) : String :=
  "Found more than 1 WASI version in this module (" ++ versionList ++
    ") and `--deny-multiple-wasi-versions` is enabled."

/-- The non-fatal dialect-conflict warning (default policy). -/
def multiVersionWarning (versionList : String) : String :=
  "Found more than 1 WASI version in this module (" ++ versionList ++
    "). If this is intentional, pass `--allow-multiple-wasi-versions` to suppress this warning."

/-- The version list rendering of `get_version_list`: each namespace
string wrapped in backticks, joined by commas. -/
def versionList (versions : List WasiVersion) : String :=
  String.intercalate ", " (versions.map (fun v => "`" ++ v.getNamespaceStr ++ "`"))

/-- The WASI program name: the explicit `--command-name` override, else
the file's base name, else the empty string. -/
def wasiProgramName (run : Run) : String :=
  match run.command_name with
  | some c => c
  | none => (fileName run.path).getD ""

/-- The explicit-invoke branch of `Run::inner_execute`: instantiate with
the empty import set, invoke the named function, and print the
space-joined stringified results as one stdout line. -/
def invokeBranch (env : Env) (run : Run) (m : Module) (evs : List Event)
    (ws : List String) (invoke : String) : RunTrace :=
  match env.instantiate m .empty with
  | .error e => ⟨.err [e], [], ws, evs ++ [.instantiated .empty]⟩
  | .ok _ =>
    match invokeFunction env run ⟨m⟩ invoke run.args with
    | .panicked => ⟨.panicked, [], ws, evs ++ [.instantiated .empty]⟩
    | .err msg => ⟨.err [msg], [], ws, evs ++ [.instantiated .empty]⟩
    | .ok vals =>
      ⟨.ok, [String.intercalate " " (vals.map (valToString env))], ws,
        evs ++ [.instantiated .empty]⟩

/-- The Emscripten branch of `Run::inner_execute`: build the Emscripten
host environment and instantiate; on instantiation failure report the
dual-ABI conflict when the module also has WASI imports, else the generic
instantiation failure; otherwise run the Emscripten entrypoint. -/
def emscriptenBranch (env : Env) (run : Run) (m : Module) (evs : List Event)
    (ws : List String) : RunTrace :=
  match env.emscriptenGlobalsNew m with
  | .error e => ⟨.err [e], [], ws, evs⟩
  | .ok _ =>
    match env.instantiate m .emscripten with
    | .error e =>
      if m.hasWasiImports then
        ⟨.err ["This module has both Emscripten and WASI imports. Wasmer does not currently support Emscripten modules using WASI imports.", e],
          [], ws, evs ++ [.instantiated .emscripten]⟩
      else
        ⟨.err ["Can\x27t instantiate emscripten module", e], [], ws,
          evs ++ [.instantiated .emscripten]⟩
    | .ok _ =>
      let programName := run.command_name.getD run.path
      match env.runEmscripten programName run.args with
      | .error e =>
        ⟨.err [e], [], ws,
          evs ++ [.instantiated .emscripten, .emscriptenRan programName run.args]⟩
      | .ok _ =>
        ⟨.ok, [], ws,
          evs ++ [.instantiated .emscripten, .emscriptenRan programName run.args]⟩

/-- Hand the module to WASI execution with the program name and the
forwarded arguments, wrapping failures with the WASI context message. -/
def wasiRun (env : Env) (run : Run) (m : Module) (evs : List Event)
    (ws : List String) : RunTrace :=
  let programName := wasiProgramName run
  match env.wasiExecute m programName run.args with
  | .error e =>
    ⟨.err ["WASI execution failed", e], [], ws, evs ++ [.wasiExecuted programName run.args]⟩
  | .ok _ => ⟨.ok, [], ws, evs ++ [.wasiExecuted programName run.args]⟩

/-- The WASI branch of `Run::inner_execute`, reached with a non-empty set
of referenced dialect versions: with two or more versions the conflict
policy applies — deny fails fatally listing the versions, the default
warns once listing the versions and proceeds, allow proceeds silently. -/
def wasiBranch (env : Env) (run : Run) (m : Module) (evs : List Event)
    (ws : List String) (versions : List WasiVersion) : RunTrace :=
  if 2 ≤ versions.length then
    if run.deny_multiple_wasi_versions then
      ⟨.err [denyMsg (versionList versions)], [], ws, evs⟩
    else if run.allow_multiple_wasi_versions then
      wasiRun env run m evs ws
    else
      wasiRun env run m evs (ws ++ [multiVersionWarning (versionList versions)])
  else
    wasiRun env run m evs ws

/-- The bare branch of `Run::inner_execute`: instantiate with no imports,
locate the conventional `_start` entrypoint, and call it with no
arguments. -/
def bareBranch (env : Env) (run : Run) (m : Module) (evs : List Event)
    (ws : List String) : RunTrace :=
  match env.instantiate m .empty with
  | .error e => ⟨.err [e], [], ws, evs ++ [.instantiated .empty]⟩
  | .ok _ =>
    match tryFindFunction (suggest_function_exports env.score) run ⟨m⟩ "_start" [] with
    | .panicked => ⟨.panicked, [], ws, evs ++ [.instantiated .empty]⟩
    | .failed msg => ⟨.err [msg], [], ws, evs ++ [.instantiated .empty]⟩
    | .found f =>
      match f.behavior [] with
      | .error e => ⟨.err [e], [], ws, evs ++ [.instantiated .empty]⟩
      | .ok _ => ⟨.ok, [], ws, evs ++ [.instantiated .empty]⟩

/-- `Run::inner_execute`: load the module, then dispatch in priority
order — explicit invoke, Emscripten, WASI (when the module references at
least one dialect version), bare. -/
def innerExecute (env : Env) (run : Run) : RunTrace :=
  match getModule env run with
  | (.error ch, evs, ws) => ⟨.err ch, [], ws, evs⟩
  | (.ok m, evs, ws) =>
    match run.invoke with
    | some invoke => invokeBranch env run m evs ws invoke
    | none =>
      if m.isEmscripten then
        emscriptenBranch env run m evs ws
      else
        match m.wasiVersions with
        | some versions =>
          if versions.isEmpty then
            bareBranch env run m evs ws
          else
            wasiBranch env run m evs ws versions
        | none => bareBranch env run m evs ws

/-- The top-level failure wrapper of `Run::execute`: `failed to run
\x60<path>\x60`, with the no-compilers hint appended exactly when the set of
enabled compilers is empty. -/
def failedToRunMsg (env : Env) (run : Run) : String :=
  "failed to run `" ++ run.path ++ "`" ++
    (if env.enabledCompilers.isEmpty then " (no compilers enabled)" else "")

/-- `Run::execute`: run `inner_execute` and wrap any failure, once, at
this top-level boundary, with the failed-to-run context. -/
def execute (env : Env) (run : Run) : RunTrace :=
  let t := innerExecute env run
  match t.result with
  | .err ch => { t with result := .err (failedToRunMsg env run :: ch) }
  | _ => t

/-! Concrete fixtures used by the witnesses and counterexamples below: a
module exporting an `add : (i32, i32) -> i32` function, a module whose
function table is non-empty but which exports no function, and a baseline
environment and command line. -/

/-- An exported `add` function of signature `(i32, i32) -> i32` whose
guest behavior is 32-bit wrapping addition. -/
def addFunc : FuncHandle :=
  ⟨⟨[.i32, .i32], [.i32]⟩, fun vs =>
    match vs with
    | [.i32 a, .i32 b] => .ok [.i32 (((a + b + 2147483648) % 4294967296) - 2147483648)]
    | _ => .error "trap"⟩

/-- A plain module exporting only `add`. -/
def addModule : Module :=
  { isEmscripten := false, hasWasiImports := false, wasiVersions := none,
    functions := [()], exports := [("add", .func addFunc)] }

/-- `addModule` after `get_module` has set its display name. -/
def namedAddModule : Module := { addModule with name := some "mod.wasm" }

/-- A module whose function table is non-empty (one imported, non-exported
function) but which exports no function, only a memory. -/
def noExportModule : Module :=
  { isEmscripten := false, hasWasiImports := false, wasiVersions := none,
    functions := [()], exports := [("memory", .other)] }

/-- A baseline environment: a small payload that is not a serialized
artifact, a JIT/Cranelift store, an empty cache, and a compiler producing
`addModule`. -/
def baseEnv : Env :=
  { readFile := .ok [0, 97, 115, 109]
    isDeserializableNative := fun _ => false
    isDeserializableJIT := fun _ => false
    deserializeNative := .error "not an artifact"
    deserializeJIT := .error "not an artifact"
    getStore := .ok (.jit, .cranelift)
    enabledCompilers := [.cranelift]
    cacheDir := "/cache"
    fsCacheNew := .ok ()
    nativeExt := "so"
    jitExt := "wjit"
    hashFromStr := fun s => if s.length = 64 then some ⟨s⟩ else none
    hashGenerate := fun bs => ⟨"content-" ++ toString bs.length⟩
    cacheLoad := fun _ => .error (.ioErr .notFound "entry absent")
    cacheStore := fun _ => .ok ()
    compile := fun _ => .ok addModule
    instantiate := fun _ _ => .ok ()
    emscriptenGlobalsNew := fun _ => .ok ()
    runEmscripten := fun _ _ => .ok ()
    wasiExecute := fun _ _ _ => .ok ()
    score := fun _ _ => 0
    parseF32 := fun _ => none
    parseF64 := fun _ => none
    renderF32 := fun b => "f32:" ++ toString b
    renderF64 := fun b => "f64:" ++ toString b }

/-- A baseline command line: run `mod.wasm`, invoking `add "2" "3"`. -/
def baseRun : Run :=
  { disable_cache := false, path := "mod.wasm", invoke := some "add",
    command_name := none, cache_key := none, args := ["2", "3"],
    deny_multiple_wasi_versions := false, allow_multiple_wasi_versions := false }

/-- Claim C2: for every explicit invocation that succeeds, the returned
values are rendered in their kinds' canonical textual form and printed as
exactly one stdout line, joined by single spaces in return order. -/
theorem c2_invoke_prints_joined_results (env : Env) (run : Run) (m : Module)
    (evs : List Event) (ws : List String) (nm : String) (vals : List Val)
    (hm : getModule env run = (.ok m, evs, ws))
    (hi : run.invoke = some nm)
    (hinst : env.instantiate m .empty = .ok ())
    (hcall : invokeFunction env run ⟨m⟩ nm run.args = .ok vals) :
    innerExecute env run =
      ⟨.ok, [String.intercalate " " (vals.map (valToString env))], ws,
        evs ++ [.instantiated .empty]⟩ := by
  simp [innerExecute, hm, hi, invokeBranch, hinst, hcall]

/-- Witness for C2: invoking export `add` of signature `(i32,i32) -> i32`
with arguments `["2", "3"]` prints exactly the line `"5"`. -/
theorem c2_invoke_prints_joined_results_witness :
    innerExecute baseEnv baseRun = ⟨.ok, ["5"], [], [.compiled, .instantiated .empty]⟩ :=
  c2_invoke_prints_joined_results baseEnv baseRun namedAddModule [.compiled] [] "add"
    [.i32 5] rfl rfl rfl rfl

/-- Claim C3: when the resolved function's declared parameter count
differs from the number of supplied string arguments, invocation fails
with the arity error naming both counts and echoing the raw argument
string, for every environment (hence before any conversion or call); when
the counts agree, no arity error is raised and the result is that of the
conversion-and-call pipeline. -/
theorem c3_arity_check (env : Env) (run : Run) (inst : Instance) (nm : String)
    (args : List String) (f : FuncHandle)
    (hf : tryFindFunction (suggest_function_exports env.score) run inst nm args = .found f) :
    (f.ty.params.length ≠ args.length →
      invokeFunction env run inst nm args =
        .err (arityMsg f.ty.params.length args.length run.args)) ∧
    (f.ty.params.length = args.length →
      invokeFunction env run inst nm args =
        (match convertArgs env (args.zip f.ty.params) with
         | .error e => .err e
         | .ok invokeArgs =>
           match f.behavior invokeArgs with
           | .error e => .err e
           | .ok vals => .ok vals)) := by
  constructor
  · intro h
    simp [invokeFunction, hf, h]
  · intro h
    simp [invokeFunction, hf, h]

/-- Witness for C3: invoking the 2-parameter `add` with `["2"]` fails
with exactly the message `Function expected 2 arguments, but received 1:
"2"`, which states "expected 2 arguments, but received 1". -/
theorem c3_arity_check_witness :
    invokeFunction baseEnv { baseRun with args := ["2"] } ⟨namedAddModule⟩ "add" ["2"] =
      .err "Function expected 2 arguments, but received 1: \"2\"" :=
  (c3_arity_check baseEnv { baseRun with args := ["2"] } ⟨namedAddModule⟩ "add" ["2"]
    addFunc rfl).1 (by decide)

/-- Claim C7, at the failing input: on a module whose function table is
non-empty but which exports zero functions, export resolution does not
report the distinct no-exported-functions error (nor any error): it
panics on `suggested_functions.get(0).unwrap()`, the suggestion list
being necessarily empty. -/
theorem c7_zero_exported_functions_panics :
    exportedFunctionNames noExportModule = [] ∧
    noExportModule.functions ≠ [] ∧
    tryFindFunction (suggest_function_exports baseEnv.score) baseRun ⟨noExportModule⟩
      "foo" [] = .panicked :=
  ⟨rfl, by decide, rfl⟩

/-- Claim C10: when export resolution fails on a module with a non-empty
function table, the error construction takes the head of the suggestion
list unconditionally: it panics exactly when the suggestion function
returns an empty list, and otherwise returns an error. -/
theorem c10_suggestion_head_unwrapped (suggest : Module → String → List String)
    (run : Run) (inst : Instance) (nm : String) (args : List String) (e : ExportError)
    (hlookup : inst.getFunction nm = .error e)
    (hfns : inst.mod.functions ≠ []) :
    (suggest inst.mod "" = [] →
      tryFindFunction suggest run inst nm args = .panicked) ∧
    (suggest inst.mod "" ≠ [] →
      ∃ msg, tryFindFunction suggest run inst nm args = .failed msg) := by
  have hempty : inst.mod.functions.isEmpty = false := by
    cases h : inst.mod.functions with
    | nil => exact absurd h hfns
    | cons a as => rfl
  constructor
  · intro hs
    simp [tryFindFunction, hlookup, hempty, hs]
  · intro hs
    cases hsug : suggest inst.mod "" with
    | nil => exact absurd hsug hs
    | cons top rest =>
      cases e with
      | missing n =>
        simp only [tryFindFunction, hlookup, hempty, hsug]
        exact ⟨_, rfl⟩
      | incompatibleType =>
        simp only [tryFindFunction, hlookup, hempty, hsug]
        exact ⟨_, rfl⟩

/-- Witness for C10: with a suggestion function returning the empty list
on a module with a non-empty function table, resolution failure panics. -/
theorem c10_suggestion_head_unwrapped_witness :
    tryFindFunction (fun _ _ => ([] : List String)) baseRun ⟨noExportModule⟩ "foo" [] =
      .panicked :=
  (c10_suggestion_head_unwrapped (fun _ _ => ([] : List String)) baseRun ⟨noExportModule⟩
    "foo" [] (.missing "foo") rfl (by decide)).1 rfl

/-- Claim C1: with a module referencing two or more distinct WASI dialect
versions (and neither the invoke nor the Emscripten path applicable), the
dispatcher is exactly determined by the conflict policy: deny fails
fatally with the error listing all the versions; the default emits
exactly one warning listing the versions and proceeds to WASI execution;
allow proceeds to WASI execution with no warning. -/
theorem c1_wasi_version_conflict_policy (env : Env) (run : Run) (m : Module)
    (evs : List Event) (ws : List String) (versions : List WasiVersion)
    (hm : getModule env run = (.ok m, evs, ws))
    (hi : run.invoke = none)
    (he : m.isEmscripten = false)
    (hv : m.wasiVersions = some versions)
    (hlen : 2 ≤ versions.length) :
    (run.deny_multiple_wasi_versions = true →
      innerExecute env run = ⟨.err [denyMsg (versionList versions)], [], ws, evs⟩) ∧
    (run.deny_multiple_wasi_versions = false → run.allow_multiple_wasi_versions = false →
      innerExecute env run =
        wasiRun env run m evs (ws ++ [multiVersionWarning (versionList versions)])) ∧
    (run.deny_multiple_wasi_versions = false → run.allow_multiple_wasi_versions = true →
      innerExecute env run = wasiRun env run m evs ws) := by
  have hne : versions.isEmpty = false := by
    cases versions with
    | nil => simp at hlen
    | cons a as => rfl
  refine ⟨?_, ?_, ?_⟩
  · intro hd
    simp [innerExecute, hm, hi, he, hv, hne, wasiBranch, hlen, hd]
  · intro hd ha
    simp [innerExecute, hm, hi, he, hv, hne, wasiBranch, hlen, hd, ha]
  · intro hd ha
    simp [innerExecute, hm, hi, he, hv, hne, wasiBranch, hlen, hd, ha]

/-- A module whose imports reference the two distinct WASI dialect
versions `wasi_unstable` and `wasi_snapshot_preview1`. -/
def multiWasiModule : Module :=
  { isEmscripten := false, hasWasiImports := true,
    wasiVersions := some [.snapshot0, .snapshot1], functions := [()], exports := [] }

/-- An environment whose compiler produces `multiWasiModule`. -/
def wasiEnv : Env := { baseEnv with compile := fun _ => .ok multiWasiModule }

/-- A run of `mod.wasm` with no explicit invoke and the deny policy. -/
def denyRun : Run :=
  { baseRun with invoke := none, deny_multiple_wasi_versions := true }

/-- Witness for C1: under the deny flag, a module with two WASI versions
fails fatally with the error listing both versions verbatim. -/
theorem c1_wasi_version_conflict_policy_witness :
    innerExecute wasiEnv denyRun =
      ⟨.err ["Found more than 1 WASI version in this module (`wasi_unstable`, `wasi_snapshot_preview1`) and `--deny-multiple-wasi-versions` is enabled."],
        [], [], [.compiled]⟩ :=
  (c1_wasi_version_conflict_policy wasiEnv denyRun
    { multiWasiModule with name := some "mod.wasm" } [.compiled] []
    [.snapshot0, .snapshot1] rfl rfl rfl rfl (by decide)).1 rfl

/-- Claim C6: when an Emscripten module's instantiation fails, the
dispatcher fails fatally — with the distinct dual-ABI error when the
module also carries WASI import markers, with the generic
cannot-instantiate error otherwise — and the instantiation is attempted
exactly once (the trace carries a single instantiation event). -/
theorem c6_emscripten_instantiation_fatal (env : Env) (run : Run) (m : Module)
    (evs : List Event) (ws : List String) (e : String)
    (hm : getModule env run = (.ok m, evs, ws))
    (hi : run.invoke = none)
    (he : m.isEmscripten = true)
    (hg : env.emscriptenGlobalsNew m = .ok ())
    (hinst : env.instantiate m .emscripten = .error e) :
    innerExecute env run =
      ⟨.err [(if m.hasWasiImports then
            "This module has both Emscripten and WASI imports. Wasmer does not currently support Emscripten modules using WASI imports."
          else
            "Can\x27t instantiate emscripten module"), e],
        [], ws, evs ++ [.instantiated .emscripten]⟩ := by
  cases hw : m.hasWasiImports <;>
    simp [innerExecute, hm, hi, he, emscriptenBranch, hg, hinst, hw]

/-- A module carrying both Emscripten and WASI import markers. -/
def emWasiModule : Module :=
  { isEmscripten := true, hasWasiImports := true,
    wasiVersions := some [.snapshot1], functions := [()], exports := [] }

/-- An environment whose compiler produces `emWasiModule` and whose
Emscripten-import instantiation fails. -/
def emEnv : Env :=
  { baseEnv with
    compile := fun _ => .ok emWasiModule
    instantiate := fun _ k =>
      match k with
      | .emscripten => .error "incompatible import env.table"
      | .empty => .ok () }

/-- A run of `mod.wasm` with no explicit invoke. -/
def plainRun : Run := { baseRun with invoke := none }

/-- Witness for C6: a module with both Emscripten and WASI markers whose
instantiation fails yields the distinct dual-ABI error after exactly one
instantiation attempt. -/
theorem c6_emscripten_instantiation_fatal_witness :
    innerExecute emEnv plainRun =
      ⟨.err ["This module has both Emscripten and WASI imports. Wasmer does not currently support Emscripten modules using WASI imports.",
          "incompatible import env.table"],
        [], [], [.compiled, .instantiated .emscripten]⟩ :=
  c6_emscripten_instantiation_fatal emEnv plainRun
    { emWasiModule with name := some "mod.wasm" } [.compiled] []
    "incompatible import env.table" rfl rfl rfl rfl rfl

/-- Counterexample to claim C4 as stated: a stored entry failing to
deserialize with an I/O error that does not mean "entry absent" (a
permission-denied read) produces no warning, although the claim requires
one for every failure other than entry-absent.  The run still self-heals:
the module is recompiled and the entry overwritten. -/
def permDeniedEnv : Env :=
  { baseEnv with
    cacheLoad := fun _ => .error (.ioErr .permissionDenied "permission denied (os error 13)") }

/-- Counterexample theorem for C4: the load failure is a
permission-denied I/O error (not entry-absent), yet the warning list of
the cached-load attempt is empty. -/
theorem c4_io_error_warning_counterexample :
    permDeniedEnv.cacheLoad (resolveHash permDeniedEnv.hashFromStr permDeniedEnv.hashGenerate baseRun.cache_key [1, 2, 3]) =
      .error (.ioErr .permissionDenied "permission denied (os error 13)") ∧
    IoKind.permissionDenied ≠ IoKind.notFound ∧
    (getModuleFromCache permDeniedEnv baseRun [1, 2, 3] .jit .cranelift).2.2 = [] ∧
    (getModuleFromCache permDeniedEnv baseRun [1, 2, 3] .jit .cranelift).1 = .ok addModule :=
  ⟨rfl, by decide, rfl, rfl⟩

/-- Claim C4 as amended: on any deserialization failure of the stored
entry the dispatcher recompiles from the payload and overwrites the
entry, emitting a non-fatal warning unless the failure is the I/O
variant (which covers the entry-absent case); the corrupt entry itself is
never surfaced as an error and the outcome equals that of a cache miss. -/
theorem c4_corrupt_cache_self_heals (env : Env) (run : Run) (contents : Bytes)
    (engineType : EngineType) (compilerType : CompilerType) (e : DeserializeError)
    (hcache : env.fsCacheNew = .ok ())
    (hload : env.cacheLoad (resolveHash env.hashFromStr env.hashGenerate run.cache_key contents) = .error e) :
    getModuleFromCache env run contents engineType compilerType =
      (let h := resolveHash env.hashFromStr env.hashGenerate run.cache_key contents
       let ws : List String :=
         if e.isIoErr then [] else ["cached module is corrupted: " ++ e.display]
       match env.compile contents with
       | .error ce => (.error [ce], [.cacheRead h, .compiled], ws)
       | .ok m =>
         match env.cacheStore h with
         | .error se => (.error [se], [.cacheRead h, .compiled, .cacheWrite h], ws)
         | .ok _ => (.ok m, [.cacheRead h, .compiled, .cacheWrite h], ws)) ∧
    (getModuleFromCache env run contents engineType compilerType).1 =
      (getModuleFromCache { env with cacheLoad := fun _ => .error (.ioErr .notFound "") }
        run contents engineType compilerType).1 := by
  constructor
  · cases e <;>
      cases hc : env.compile contents <;>
      cases hs : env.cacheStore (resolveHash env.hashFromStr env.hashGenerate run.cache_key contents) <;>
      simp [getModuleFromCache, getCache, hcache, hload, hc, hs,
        DeserializeError.isIoErr, DeserializeError.display]
  · cases hc : env.compile contents with
    | error ce =>
      simp [getModuleFromCache, getCache, hcache, hload, hc]
    | ok m =>
      cases hs : env.cacheStore (resolveHash env.hashFromStr env.hashGenerate run.cache_key contents) with
      | error se =>
        simp [getModuleFromCache, getCache, hcache, hload, hc, hs]
      | ok u =>
        simp [getModuleFromCache, getCache, hcache, hload, hc, hs]

/-- Witness for C4 (amended): with an absent entry, the cached-load
attempt recompiles, stores under the content hash, warns nothing, and
its result equals the pure cache-miss run. -/
theorem c4_corrupt_cache_self_heals_witness :
    getModuleFromCache baseEnv baseRun [1, 2, 3] .jit .cranelift =
      (.ok addModule, [.cacheRead ⟨"content-3"⟩, .compiled, .cacheWrite ⟨"content-3"⟩], []) ∧
    (getModuleFromCache baseEnv baseRun [1, 2, 3] .jit .cranelift).1 =
      (getModuleFromCache { baseEnv with cacheLoad := fun _ => .error (.ioErr .notFound "") }
        baseRun [1, 2, 3] .jit .cranelift).1 :=
  c4_corrupt_cache_self_heals baseEnv baseRun [1, 2, 3] .jit .cranelift
    (.ioErr .notFound "entry absent") rfl rfl

/-- Claim C8: a supplied cache-key string that fails to parse as a digest
silently falls back to the behavior of supplying no cache key at all,
never producing an error; one that parses is used as the cache key (the
cache is consulted at exactly that digest). -/
theorem c8_cache_key_parse_or_fallback (env : Env) (run : Run) (contents : Bytes)
    (engineType : EngineType) (compilerType : CompilerType) (k : String) :
    (env.hashFromStr k = none →
      getModuleFromCache env { run with cache_key := some k } contents engineType
          compilerType =
        getModuleFromCache env { run with cache_key := none } contents engineType
          compilerType) ∧
    (∀ h, env.hashFromStr k = some h → env.fsCacheNew = .ok () →
      ∃ tail,
        (getModuleFromCache env { run with cache_key := some k } contents engineType
            compilerType).2.1 = .cacheRead h :: tail) := by
  constructor
  · intro hk
    simp [getModuleFromCache, resolveHash, hk]
  · intro h hk hc
    have hres : resolveHash env.hashFromStr env.hashGenerate (some k) contents = h := by
      simp [resolveHash, hk]
    cases hl : env.cacheLoad h with
    | ok m =>
      exact ⟨[], by simp [getModuleFromCache, getCache, hc, hres, hl]⟩
    | error e =>
      cases hcmp : env.compile contents with
      | error ce =>
        exact ⟨[.compiled], by simp [getModuleFromCache, getCache, hc, hres, hl, hcmp]⟩
      | ok m =>
        cases hs : env.cacheStore h with
        | error se =>
          exact ⟨[.compiled, .cacheWrite h],
            by simp [getModuleFromCache, getCache, hc, hres, hl, hcmp, hs]⟩
        | ok u =>
          exact ⟨[.compiled, .cacheWrite h],
            by simp [getModuleFromCache, getCache, hc, hres, hl, hcmp, hs]⟩

/-- A 64-character digest string accepted by the baseline key parser. -/
def k64 : String := "0123456789abcdef0123456789abcdef0123456789abcdef0123456789abcdef"

/-- Witness for C8: the non-digest key `not-a-digest` behaves exactly as
no key, and a valid digest key is the key the cache is consulted at. -/
theorem c8_cache_key_parse_or_fallback_witness :
    (getModuleFromCache baseEnv { baseRun with cache_key := some "not-a-digest" } [1]
        .jit .cranelift =
      getModuleFromCache baseEnv { baseRun with cache_key := none } [1] .jit .cranelift) ∧
    (∃ tail,
      (getModuleFromCache baseEnv { baseRun with cache_key := some k64 } [1]
          .jit .cranelift).2.1 = .cacheRead ⟨k64⟩ :: tail) :=
  ⟨(c8_cache_key_parse_or_fallback baseEnv baseRun [1] .jit .cranelift "not-a-digest").1 rfl,
   (c8_cache_key_parse_or_fallback baseEnv baseRun [1] .jit .cranelift k64).2 ⟨k64⟩ rfl rfl⟩

/-- Whether an event touches the compiled-module cache. -/
def isCacheEvent : Event → Bool
  | .cacheRead _ => true
  | .cacheWrite _ => true
  | _ => false

/-- An environment whose payload is a small (4-byte) serialized artifact
recognized by the headless native fast path. -/
def artifactEnv : Env :=
  { baseEnv with isDeserializableNative := fun _ => true, deserializeNative := .ok addModule }

/-- Counterexample to claim C5 as stated: a payload of at most 4096 bytes
that is recognizable as a serialized artifact is loaded by deserializing
it directly — the cache is indeed never touched, but no compilation
happens, although the claim requires the module to be compiled directly. -/
theorem c5_small_artifact_not_compiled_counterexample :
    artifactEnv.readFile = .ok [0, 97, 115, 109] ∧
    ([0, 97, 115, 109] : Bytes).length ≤ 4096 ∧
    getModule artifactEnv baseRun = (.ok addModule, [.deserializedFromFile], []) ∧
    Event.compiled ∉ [Event.deserializedFromFile] :=
  ⟨rfl, by decide, rfl, by decide⟩

/-- When the payload is recognized as a serialized artifact (by the
native check, or failing that by the JIT check), the load trace is
exactly one headless deserialization: no compilation, no cache access. -/
theorem getModule_events_artifact (env : Env) (run : Run) (contents : Bytes)
    (hrf : env.readFile = .ok contents)
    (hart : env.isDeserializableNative contents = true ∨
      env.isDeserializableJIT contents = true) :
    (getModule env run).2.1 = [Event.deserializedFromFile] := by
  cases hn : env.isDeserializableNative contents with
  | true =>
    cases hd : env.deserializeNative <;> simp [getModule, hrf, hn, hd]
  | false =>
    have hj : env.isDeserializableJIT contents = true := by
      rcases hart with h | h
      · rw [h] at hn
        exact absurd hn (by simp)
      · exact h
    cases hd : env.deserializeJIT <;> simp [getModule, hrf, hn, hj, hd]

/-- When the payload is not a recognizable artifact, is at most 4096
bytes long or has caching disabled, and a store was selected, the load
trace is exactly one direct compilation: no deserialization, no cache
access. -/
theorem getModule_events_compiled (env : Env) (run : Run) (contents : Bytes)
    (engineType : EngineType) (compilerType : CompilerType)
    (hrf : env.readFile = .ok contents)
    (hn : env.isDeserializableNative contents = false)
    (hj : env.isDeserializableJIT contents = false)
    (hgs : env.getStore = .ok (engineType, compilerType))
    (hsmall : run.disable_cache = true ∨ contents.length ≤ 4096) :
    (getModule env run).2.1 = [Event.compiled] := by
  have hguard : ¬(run.disable_cache = false ∧ 4096 < contents.length) := by
    rcases hsmall with h | h
    · intro hcon
      rw [h] at hcon
      exact absurd hcon.1 (by simp)
    · intro hcon
      exact absurd hcon.2 (by omega)
  cases hcmp : env.compile contents <;>
    simp [getModule, hrf, hn, hj, hgs, hguard, hcmp]

/-- Any cache event in a load trace implies the cache guard held: caching
enabled and a payload strictly larger than 4096 bytes. -/
theorem getModule_cache_events_guarded (env : Env) (run : Run) :
    ∀ ev ∈ (getModule env run).2.1, isCacheEvent ev = true →
      ∃ contents, env.readFile = .ok contents ∧
        run.disable_cache = false ∧ 4096 < contents.length := by
  cases hrf : env.readFile with
  | error e =>
    intro ev hev
    simp [getModule, hrf] at hev
  | ok contents =>
    cases hn : env.isDeserializableNative contents with
    | true =>
      cases hd : env.deserializeNative <;>
        (intro ev hev hcache
         simp [getModule, hrf, hn, hd] at hev
         simp [hev, isCacheEvent] at hcache)
    | false =>
      cases hj : env.isDeserializableJIT contents with
      | true =>
        cases hd : env.deserializeJIT <;>
          (intro ev hev hcache
           simp [getModule, hrf, hn, hj, hd] at hev
           simp [hev, isCacheEvent] at hcache)
      | false =>
        cases hgs : env.getStore with
        | error e =>
          intro ev hev
          simp [getModule, hrf, hn, hj, hgs] at hev
        | ok pair =>
          obtain ⟨et, ct⟩ := pair
          by_cases hguard : run.disable_cache = false ∧ 4096 < contents.length
          · intro ev hev hcache
            exact ⟨contents, rfl, hguard.1, hguard.2⟩
          · cases hcmp : env.compile contents <;>
              (intro ev hev hcache
               simp [getModule, hrf, hn, hj, hgs, hguard, hcmp] at hev
               simp [hev, isCacheEvent] at hcache)

/-- Claim C5 as amended: the cache is consulted or written only when the
disable-cache flag is unset and the payload strictly exceeds 4096 bytes;
for payloads of at most 4096 bytes, or when the flag is set, the cache is
never read or written, and the module is loaded by direct compilation
when the payload is not a recognizable precompiled artifact (no
deserialization happens), while a recognizable precompiled artifact is
deserialized directly instead of compiled (no compilation happens). -/
theorem c5_cache_threshold_and_flag (env : Env) (run : Run) :
    (∀ contents, env.readFile = .ok contents →
      run.disable_cache = true ∨ contents.length ≤ 4096 →
      (∀ ev ∈ (getModule env run).2.1, isCacheEvent ev = false) ∧
      (env.isDeserializableNative contents = true ∨
          env.isDeserializableJIT contents = true →
        (getModule env run).2.1 = [Event.deserializedFromFile] ∧
        Event.compiled ∉ (getModule env run).2.1) ∧
      (env.isDeserializableNative contents = false →
        env.isDeserializableJIT contents = false →
        ∀ engineType compilerType, env.getStore = .ok (engineType, compilerType) →
          (getModule env run).2.1 = [Event.compiled] ∧
          Event.deserializedFromFile ∉ (getModule env run).2.1)) ∧
    (∀ ev ∈ (getModule env run).2.1, isCacheEvent ev = true →
      ∃ contents, env.readFile = .ok contents ∧
        run.disable_cache = false ∧ 4096 < contents.length) := by
  constructor
  · intro contents hrf hsmall
    refine ⟨?_, ?_, ?_⟩
    · intro ev hev
      cases hn2 : env.isDeserializableNative contents with
      | true =>
        have h := getModule_events_artifact env run contents hrf (Or.inl hn2)
        rw [h] at hev
        simp at hev
        simp [hev, isCacheEvent]
      | false =>
        cases hj2 : env.isDeserializableJIT contents with
        | true =>
          have h := getModule_events_artifact env run contents hrf (Or.inr hj2)
          rw [h] at hev
          simp at hev
          simp [hev, isCacheEvent]
        | false =>
          cases hgs : env.getStore with
          | error e =>
            simp [getModule, hrf, hn2, hj2, hgs] at hev
          | ok pair =>
            obtain ⟨et, ct⟩ := pair
            have h := getModule_events_compiled env run contents et ct hrf hn2 hj2
              hgs hsmall
            rw [h] at hev
            simp at hev
            simp [hev, isCacheEvent]
    · intro hart
      have h := getModule_events_artifact env run contents hrf hart
      refine ⟨h, ?_⟩
      rw [h]
      simp
    · intro hn hj engineType compilerType hgs
      have h := getModule_events_compiled env run contents engineType compilerType
        hrf hn hj hgs hsmall
      refine ⟨h, ?_⟩
      rw [h]
      simp
  · exact getModule_cache_events_guarded env run

/-- A run with the disable-cache flag set. -/
def noCacheRun : Run := { baseRun with disable_cache := true }

/-- Witness for C5 (amended): with the disable-cache flag set and a
payload that is not a recognizable artifact, the load trace contains no
cache events and is exactly one direct compilation, with no
deserialization. -/
theorem c5_cache_threshold_and_flag_witness :
    (∀ ev ∈ (getModule baseEnv noCacheRun).2.1, isCacheEvent ev = false) ∧
    ((getModule baseEnv noCacheRun).2.1 = [Event.compiled] ∧
      Event.deserializedFromFile ∉ (getModule baseEnv noCacheRun).2.1) :=
  ⟨((c5_cache_threshold_and_flag baseEnv noCacheRun).1 [0, 97, 115, 109] rfl
      (Or.inl rfl)).1,
   ((c5_cache_threshold_and_flag baseEnv noCacheRun).1 [0, 97, 115, 109] rfl
      (Or.inl rfl)).2.2 rfl rfl .jit .cranelift rfl⟩

/-- An environment with no enabled compilers whose payload read fails
with a plain I/O error. -/
def noCompilerEnv : Env :=
  { baseEnv with
    enabledCompilers := []
    readFile := .error "No such file or directory (os error 2)" }

/-- Counterexample to claim C9 as stated: with no compilers enabled, the
no-compilers hint is appended to the outer failure message even though
the failure is a payload I/O error, not the no-usable-compiler
configuration error (store selection is never even reached). -/
theorem c9_hint_on_io_failure_counterexample :
    (innerExecute noCompilerEnv baseRun).result =
      .err ["No such file or directory (os error 2)"] ∧
    (execute noCompilerEnv baseRun).result =
      .err ["failed to run `mod.wasm` (no compilers enabled)",
        "No such file or directory (os error 2)"] :=
  ⟨rfl, rfl⟩

/-- Claim C9 as amended: every failure of the run command is wrapped
exactly once, at the top-level boundary, with the outer message `failed
to run \x60<path>\x60` chaining the specific inner cause, and the
no-compilers hint is appended to that outer message exactly when the set
of enabled compilers is empty (regardless of the failure's cause);
successful runs are not wrapped. -/
theorem c9_top_level_failure_wrapping (env : Env) (run : Run) :
    (∀ ch, (innerExecute env run).result = .err ch →
      (execute env run).result =
        .err (("failed to run `" ++ run.path ++ "`" ++
          (if env.enabledCompilers.isEmpty then " (no compilers enabled)" else "")) :: ch)) ∧
    ((innerExecute env run).result = .ok → (execute env run).result = .ok) := by
  constructor
  · intro ch hch
    simp [execute, hch, failedToRunMsg]
  · intro hok
    simp [execute, hok]

/-- An environment whose compiler rejects the payload. -/
def compileFailEnv : Env :=
  { baseEnv with compile := fun _ => .error "unsupported opcode" }

/-- Witness for C9 (amended): a compile failure is wrapped once with the
outer failed-to-run message (no hint, compilers being enabled), on top of
the engine/compiler load context chaining the root cause. -/
theorem c9_top_level_failure_wrapping_witness :
    (execute compileFailEnv baseRun).result =
      .err ["failed to run `mod.wasm`",
        "module instantiation failed (engine: jit, compiler: cranelift)",
        "unsupported opcode"] :=
  (c9_top_level_failure_wrapping compileFailEnv baseRun).1
    ["module instantiation failed (engine: jit, compiler: cranelift)",
      "unsupported opcode"] rfl

end Wasmer
